import Mathlib

/-!
Verification development for the SpringBreak2026 trip-planning service.

The embedding follows the two JavaScript sources:
* `tripPlanner.js` — stay calculation (`computeDestinationStay`,
  `computeBaselineStay`), component normalization (`normalizeComponent`,
  `normalizeHotelComponent`, `normalizeCarComponent`), cost aggregation
  (`estimateTotals`, `optionCostById`), itinerary normalization
  (`normalizeItinerary`) and the flight-change recomputation
  (`recomputeDependentComponentsFromFlight`).
* `server.js` — the `/api/confirm-component` handler, modelled as the pure
  state-transition function `confirmComponent` on a `SessionRecord`.

JavaScript numbers are modelled as exact rationals plus a separate `NaN`
constructor (`JNum`); dynamic JSON field values that the code coerces with
`Number(...)` are modelled by `JVal`.  `Number(x).toFixed(2)` applied to a
rational is modelled by rounding to the nearest multiple of 1/100
(`round2`); the concrete values appearing in the theorems below are far
from ties, so the tie-breaking convention is irrelevant to every result.
Fields that may be absent (`undefined`/`null`) or carry a value of the
wrong dynamic type are modelled with `Option`.
-/

namespace TripPlanner

/-- A JavaScript number: an exact rational or `NaN`.  (`typeof x === "number"`
is true for both constructors, matching JS where `typeof NaN === "number"`.) -/
inductive JNum where
  | num (q : ℚ)
  | nan
deriving DecidableEq, Repr

/-- JS `+` on numbers; any operation involving `NaN` yields `NaN`. -/
def JNum.add : JNum → JNum → JNum
  | .num a, .num b => .num (a + b)
  | _, _ => .nan

/-- JS `*` on numbers; any operation involving `NaN` yields `NaN`. -/
def JNum.mul : JNum → JNum → JNum
  | .num a, .num b => .num (a * b)
  | _, _ => .nan

/-- JS `/` on numbers.  Division by zero is modelled as `NaN`; every division
in the source is guarded by a strict-positivity test on the divisor, so this
case is unreachable in the modelled code paths. -/
def JNum.div : JNum → JNum → JNum
  | .num a, .num b => if b = 0 then .nan else .num (a / b)
  | _, _ => .nan

/-- Round a rational to the nearest multiple of 1/100, modelling
`Number(x.toFixed(2))` on the exact value. -/
def round2 (q : ℚ) : ℚ := ((round (q * 100) : ℤ) : ℚ) / 100

/-- `Number(x.toFixed(2))` on a JS number; `NaN.toFixed(2)` is `"NaN"` and
`Number("NaN")` is `NaN`. -/
def JNum.toFixed2 : JNum → JNum
  | .num q => .num (round2 q)
  | .nan => .nan

/-- JS `x > 0` on a number (`NaN > 0` is false). -/
def JNum.gtZero : JNum → Bool
  | .num q => decide (0 < q)
  | .nan => false

/-- A dynamic JSON field value, as far as the modelled code inspects one:
a number, `NaN`, a string, `null`/`undefined` (merged, both are nullish and
falsy), or a boolean. -/
inductive JVal where
  | jnum (q : ℚ)
  | jnan
  | jstr (s : String)
  | jnull
  | jbool (b : Bool)
deriving DecidableEq, Repr

/-- JS truthiness of a `JVal`. -/
def JVal.truthy : JVal → Bool
  | .jnum q => decide (q ≠ 0)
  | .jnan => false
  | .jstr s => decide (s ≠ "")
  | .jnull => false
  | .jbool b => b

/-- JS `Number(s)` on a string.  The model covers the empty string (0),
optionally signed integer literals, and everything else (`NaN`); the data
this program feeds through `Number` never uses fractional or exponent
string forms, so those are not modelled. -/
def jsStringToNumber (s : String) : JNum :=
  match s.toList with
  | [] => .num 0
  | cs =>
      let signed := cs.headD ' ' = '-'
      let digits := if signed then cs.tail else cs
      if digits ≠ [] ∧ digits.all Char.isDigit then
        let n : ℚ := (digits.foldl (fun a c => a * 10 + (c.toNat - '0'.toNat)) 0 : ℕ)
        .num (if signed then -n else n)
      else .nan

/-- JS `Number(v)` on a `JVal`.  The `jnull` case merges `Number(null) = 0`
and `Number(undefined) = NaN`; in every modelled code path `Number` is only
reached through `Number(v || d)`, whose guard filters out nullish values, so
the choice is irrelevant. -/
def JVal.toNumber : JVal → JNum
  | .jnum q => .num q
  | .jnan => .nan
  | .jstr s => jsStringToNumber s
  | .jnull => .num 0
  | .jbool b => .num (if b then 1 else 0)

/-- JS `Number(v || d)`: take the default when `v` is falsy, else coerce. -/
def jsNumOr (v : JVal) (d : ℚ) : JNum :=
  if v.truthy then v.toNumber else .num d

/-- JS `Math.max(1, x)`: `NaN` propagates (`Math.max(1, NaN)` is `NaN`). -/
def jsMaxOne : JNum → JNum
  | .num q => .num (max 1 q)
  | .nan => .nan

/-! ### Calendar arithmetic

`new Date("YYYY-MM-DDT00:00:00Z").getTime()` is a linear function of the
civil day number, so day differences between two such dates equal the
difference of their civil day numbers.  `daysFromCivil` is the standard
civil-calendar-to-epoch-day bijection. -/

/-- Gregorian leap-year test. -/
def isLeapYear (y : ℤ) : Bool :=
  y % 4 = 0 && (y % 100 ≠ 0 || y % 400 = 0)

/-- Number of days in a month. -/
def daysInMonth (y m : ℤ) : ℤ :=
  if m = 1 ∨ m = 3 ∨ m = 5 ∨ m = 7 ∨ m = 8 ∨ m = 10 ∨ m = 12 then 31
  else if m = 4 ∨ m = 6 ∨ m = 9 ∨ m = 11 then 30
  else if isLeapYear y then 29
  else 28

/-- Days since 1970-01-01 of the civil date `y-m-d` (valid modern dates only
reach this function; the years involved are positive). -/
def daysFromCivil (y m d : ℤ) : ℤ :=
  let yy := if m ≤ 2 then y - 1 else y
  let era := yy / 400
  let yoe := yy - era * 400
  let mp := m + (if 2 < m then -3 else 9)
  let doy := (153 * mp + 2) / 5 + d - 1
  let doe := yoe * 365 + yoe / 4 - yoe / 100 + doy
  era * 146097 + doe - 719468

/-- Fold a digit list into a natural number. -/
def digitsToNat (cs : List Char) : ℕ :=
  cs.foldl (fun a c => a * 10 + (c.toNat - '0'.toNat)) 0

/-- The regex `^\d{4}-\d{2}-\d{2}$` from `extractLocalDatePart`. -/
def isDatePartFormat (s : String) : Bool :=
  match s.toList with
  | [y1, y2, y3, y4, '-', m1, m2, '-', d1, d2] =>
      [y1, y2, y3, y4, m1, m2, d1, d2].all Char.isDigit
  | _ => false

/-- Parse a `YYYY-MM-DD` string to its epoch day number.  Returns `none` for
a malformed string or an out-of-range month/day, matching JS where
`new Date("2026-13-01T00:00:00Z")` is an Invalid Date (`NaN` time value). -/
def dateStringToDays (s : String) : Option ℤ :=
  match s.toList with
  | [y1, y2, y3, y4, '-', m1, m2, '-', d1, d2] =>
      if [y1, y2, y3, y4, m1, m2, d1, d2].all Char.isDigit then
        let y : ℤ := digitsToNat [y1, y2, y3, y4]
        let m : ℤ := digitsToNat [m1, m2]
        let d : ℤ := digitsToNat [d1, d2]
        if 1 ≤ m ∧ m ≤ 12 ∧ 1 ≤ d ∧ d ≤ daysInMonth y m then
          some (daysFromCivil y m d)
        else none
      else none
  | _ => none

/-- `dateTimeString.split("T")[0]`: the prefix of the string before its
first `"T"` (the whole string when it has none). -/
def beforeFirstT (s : String) : String :=
  String.mk (s.toList.takeWhile (fun c => c ≠ 'T'))

/-- `extractLocalDatePart`: take the part of the timestamp before `"T"` and
keep it only if it matches `^\d{4}-\d{2}-\d{2}$`; nullish or non-string
input yields `null`. -/
def extractLocalDatePart (dateTimeString : Option String) : Option String :=
  match dateTimeString with
  | none => none
  | some s =>
      if s = "" then none
      else
        let datePart := beforeFirstT s
        if datePart ≠ "" ∧ isDatePartFormat datePart then some datePart else none

/-- `dayDiffFromLocalDates`: whole-day difference between two date parts,
`null` when either part is missing/invalid or the end precedes the start.
Both dates are parsed at UTC midnight, so `Math.floor((end-start)/day)` is
exactly the difference of the civil day numbers. -/
def dayDiffFromLocalDates (startDatePart endDatePart : Option String) : Option ℤ :=
  match startDatePart, endDatePart with
  | some s, some e =>
      match dateStringToDays s, dateStringToDays e with
      | some sd, some ed => if ed < sd then none else some (ed - sd)
      | _, _ => none
  | _, _ => none

/-- `parseDateSafe`: `new Date(value)`, `null` when invalid.  The model
covers ISO `YYYY-MM-DD` strings — the only date format this application's
preference fields use — and treats every other string as unparsable; the
empty string is falsy and rejected up front exactly as in the source. -/
def parseDateSafe (value : String) : Option ℤ :=
  if value = "" then none
  else if isDatePartFormat value then dateStringToDays value
  else none

/-! ### Data model

One dynamic option shape is shared by the three components, mirroring the
duck-typed JSON the source passes around: flight options carry the local
timestamps, hotel options the nightly rate / night count, car options the
daily rate / rental day count.  `Option` on a numeric field means the field
is absent or holds a non-number value (the source always guards numeric
fields with `typeof x === "number"` before using them, so absent and
ill-typed are indistinguishable to the modelled code). -/

/-- One researched offering of a component (a row of the dynamic option
lists in the stage JSON). -/
structure TripOption where
  id : Option String := none
  label : Option String := none
  outboundArrivalLocal : Option String := none
  returnDepartureLocal : Option String := none
  nightlyUsd : Option JNum := none
  nights : Option JNum := none
  stayNights : Option JNum := none
  dailyRateUsd : Option JNum := none
  rentalDays : Option JNum := none
  costUsd : Option JNum := none
deriving DecidableEq, Repr

/-- One trip component (flight / hotel / carRental) as it appears in an
itinerary; any field may be missing in raw stage output. -/
structure TripComponent where
  options : Option (List TripOption) := none
  recommendedOptionId : Option String := none
  confirmationQuestion : Option String := none
deriving DecidableEq, Repr

/-- The `components` object of an itinerary. -/
structure Components where
  flight : Option TripComponent := none
  hotel : Option TripComponent := none
  carRental : Option TripComponent := none
deriving DecidableEq, Repr

/-- The `stayAtDestination` object.  The day/night counts are dynamic JSON
values: the stay calculator writes rational numbers into them, but raw
agent output may put anything there. -/
structure StayWindow where
  arrivalLocal : Option String := none
  departureLocal : Option String := none
  daysAtDestination : JVal := .jnull
  nightsAtDestination : JVal := .jnull
  calculationNote : Option String := none
deriving DecidableEq, Repr

/-- One activity row of an itinerary. -/
structure Activity where
  name : Option String := none
  estimatedCostUsd : JVal := .jnull
  scheduledDay : Option String := none
  notes : Option String := none
deriving DecidableEq, Repr

/-- One activity idea from the research stage. -/
structure ActivityIdea where
  name : Option String := none
  estimatedCostUsd : JVal := .jnull
  whyFit : Option String := none
deriving DecidableEq, Repr

/-- The `estimatedCostSummary` object produced by `estimateTotals`. -/
structure CostSummary where
  flightUsd : JNum
  hotelUsd : JNum
  carRentalUsd : JNum
  activitiesUsd : JNum
  totalUsd : JNum
deriving DecidableEq, Repr

/-- An itinerary document; every field may be missing in the raw stage
output and is made present by `normalizeItinerary`. -/
structure Itinerary where
  tripSummary : Option String := none
  stayAtDestination : Option StayWindow := none
  components : Option Components := none
  activities : Option (List Activity) := none
  safetyConcerns : Option (List String) := none
  packingList : Option (List String) := none
  estimatedCostSummary : Option CostSummary := none
  disclaimer : Option String := none
deriving DecidableEq, Repr

/-- The validated research-stage document (only the fields the modelled
code reads). -/
structure Research where
  flightOptions : Option (List TripOption) := none
  hotelOptions : Option (List TripOption) := none
  carRentalOptions : Option (List TripOption) := none
  activityIdeas : Option (List ActivityIdea) := none
deriving DecidableEq, Repr

/-- The validated safety-stage document (only the fields the modelled code
reads). -/
structure Safety where
  safetyConcerns : Option (List String) := none
  packingList : Option (List String) := none
deriving DecidableEq, Repr

/-- Trip preferences as accepted by the zod schema `tripRequestSchema`.
`tripLengthDays` is a JS number, modelled as a rational. -/
structure TripRequest where
  startCity : String
  destinationCity : String
  startDate : String
  endDate : String
  tripLengthDays : ℚ
  activities : List String
  weatherPreferences : String
  airTravelClass : String
  hotelStars : String
  transportationNotes : Option String := none
deriving DecidableEq, Repr

/-- `validateTripRequest` / `tripRequestSchema.safeParse`: the zod checks of
the source, including the refinement `endDate` parses after `startDate`. -/
def validateTripRequest (r : TripRequest) : Bool :=
  decide (2 ≤ r.startCity.length) &&
  decide (2 ≤ r.destinationCity.length) &&
  decide (4 ≤ r.startDate.length) &&
  decide (4 ≤ r.endDate.length) &&
  decide (r.tripLengthDays.den = 1) &&
  decide (0 < r.tripLengthDays) &&
  !r.activities.isEmpty &&
  r.activities.all (fun a => decide (2 ≤ a.length)) &&
  decide (2 ≤ r.weatherPreferences.length) &&
  (r.airTravelClass = "economy" || r.airTravelClass = "business") &&
  (r.hotelStars = "3" || r.hotelStars = "4" || r.hotelStars = "5") &&
  (match parseDateSafe r.startDate, parseDateSafe r.endDate with
   | some s, some e => decide (s < e)
   | _, _ => false)

/-! ### Stay calculator -/

/-- `Number(preferences?.tripLengthDays || 1)`: the trip length, with falsy
(zero) replaced by 1. -/
def tripLengthOrOne (preferences : TripRequest) : ℚ :=
  if preferences.tripLengthDays = 0 then 1 else preferences.tripLengthDays

/-- The parsed start/end pair of `computeBaselineStay`, `none` when either
date is unparsable or the end is not strictly after the start (the source's
`!start || !end || end <= start` early-return condition). -/
def baselineDatesUsable (preferences : TripRequest) : Option (ℤ × ℤ) :=
  match parseDateSafe preferences.startDate, parseDateSafe preferences.endDate with
  | some s, some e => if e ≤ s then none else some (s, e)
  | _, _ => none

/-- The early-return object of `computeBaselineStay` for unusable dates:
both estimates default from the trip length (`Math.max(1, len)` days and
`Math.max(1, len - 1)` nights). -/
def baselineFromTripLength (preferences : TripRequest) : StayWindow :=
  { arrivalLocal := some preferences.startDate
    departureLocal := some preferences.endDate
    daysAtDestination := .jnum (max 1 (tripLengthOrOne preferences))
    nightsAtDestination := .jnum (max 1 (tripLengthOrOne preferences - 1))
    calculationNote := none }

/-- `computeBaselineStay`: day/night estimates from the raw preference date
window, falling back to the trip length when the dates are unusable.  Both
parsed dates are UTC midnights, so the millisecond floor-difference of the
source is exactly the day-number difference. -/
def computeBaselineStay (preferences : TripRequest) : StayWindow :=
  match baselineDatesUsable preferences with
  | none => baselineFromTripLength preferences
  | some (s, e) =>
      let diffDays := e - s
      { arrivalLocal := some preferences.startDate
        departureLocal := some preferences.endDate
        daysAtDestination := .jnum ((max 1 diffDays : ℤ) : ℚ)
        nightsAtDestination := .jnum ((max 0 (diffDays - 1) : ℤ) : ℚ)
        calculationNote := none }

/-- `computeDestinationStay`: derive the stay window from the referenced
flight option's local date parts when possible, else from the baseline
window.  The flight lookup compares `option.id === preferredFlightId` with
JS strict equality on possibly-undefined values, which the `Option String`
equality reproduces. -/
def computeDestinationStay (itinerary : Option Itinerary) (researchJson : Research)
    (preferences : TripRequest) : StayWindow :=
  let baseline := computeBaselineStay preferences
  let preferredFlightId :=
    ((itinerary.bind (·.components)).bind (·.flight)).bind (·.recommendedOptionId)
  let flightOptions := researchJson.flightOptions.getD []
  let flightOption :=
    (flightOptions.find? (fun o => o.id = preferredFlightId)).orElse
      (fun _ => flightOptions.head?)
  let arrivalDate := extractLocalDatePart (flightOption.bind (·.outboundArrivalLocal))
  let departureDate := extractLocalDatePart (flightOption.bind (·.returnDepartureLocal))
  let flightNights := dayDiffFromLocalDates arrivalDate departureDate
  match flightNights with
  | some n =>
      if 0 ≤ n then
        let nightsAtDestination := max 0 n
        { arrivalLocal :=
            (flightOption.bind (·.outboundArrivalLocal)).orElse (fun _ => baseline.arrivalLocal)
          departureLocal :=
            (flightOption.bind (·.returnDepartureLocal)).orElse (fun _ => baseline.departureLocal)
          daysAtDestination := .jnum ((nightsAtDestination + 1 : ℤ) : ℚ)
          nightsAtDestination := .jnum ((nightsAtDestination : ℤ) : ℚ)
          calculationNote := some
            "Calculated from local flight date parts (arrival and return departure), which handles overnight travel and timezone offsets." }
      else
        { arrivalLocal := baseline.arrivalLocal
          departureLocal := baseline.departureLocal
          daysAtDestination := baseline.daysAtDestination
          nightsAtDestination := baseline.nightsAtDestination
          calculationNote := some
            "Calculated from start/end date window (flight schedule timestamps unavailable)." }
  | none =>
      { arrivalLocal := baseline.arrivalLocal
        departureLocal := baseline.departureLocal
        daysAtDestination := baseline.daysAtDestination
        nightsAtDestination := baseline.nightsAtDestination
        calculationNote := some
          "Calculated from start/end date window (flight schedule timestamps unavailable)." }

/-! ### Component normalizer -/

/-- `normalizeComponent`: keep the component's option list when it is a
non-empty array, else fall back to the supplied research options (or `[]`);
default the recommended id to the first option's id (or `"option_1"`) and
the confirmation question to the fallback text. -/
def normalizeComponent (component : Option TripComponent)
    (fallbackOptions : Option (List TripOption)) (fallbackQuestion : String) :
    TripComponent :=
  let options :=
    match component.bind (·.options) with
    | some (o :: rest) => o :: rest
    | _ => fallbackOptions.getD []
  let firstOptionId := (options.head?.bind (·.id)).getD "option_1"
  { options := some options
    recommendedOptionId :=
      some ((component.bind (·.recommendedOptionId)).getD firstOptionId)
    confirmationQuestion :=
      some ((component.bind (·.confirmationQuestion)).getD fallbackQuestion) }

/-- `deriveNightlyRate`: prefer an explicit numeric nightly rate, else divide
the total cost by a strictly positive declared night count. -/
def deriveNightlyRate (option : TripOption) : Option JNum :=
  match option.nightlyUsd with
  | some n => some n
  | none =>
      match option.costUsd, option.nights with
      | some c, some n => if n.gtZero then some ((c.div n).toFixed2) else none
      | _, _ => none

/-- `deriveDailyCarRate`: prefer an explicit numeric daily rate, else divide
the total cost by a strictly positive declared rental day count. -/
def deriveDailyCarRate (option : TripOption) : Option JNum :=
  match option.dailyRateUsd with
  | some n => some n
  | none =>
      match option.costUsd, option.rentalDays with
      | some c, some n => if n.gtZero then some ((c.div n).toFixed2) else none
      | _, _ => none

/-- The billed night count of `normalizeHotelComponent`:
`Math.max(1, Number(computedStay?.nightsAtDestination || 1))`. -/
def hotelStayNights (computedStay : StayWindow) : JNum :=
  jsMaxOne (jsNumOr computedStay.nightsAtDestination 1)

/-- The billed rental-day count of `normalizeCarComponent`:
`Math.max(1, Number(computedStay?.daysAtDestination || 1))`. -/
def carStayDays (computedStay : StayWindow) : JNum :=
  jsMaxOne (jsNumOr computedStay.daysAtDestination 1)

/-- `normalizeHotelComponent`: normalize the component shape, then re-price
every option as nightly rate × billed nights (when a rate is derivable),
stamping the billed night count into `nights` and `stayNights`. -/
def normalizeHotelComponent (component : Option TripComponent)
    (fallbackOptions : Option (List TripOption)) (computedStay : StayWindow) :
    TripComponent :=
  let base := normalizeComponent component fallbackOptions
    "Please confirm this hotel option."
  let nights := hotelStayNights computedStay
  { base with
    options := some ((base.options.getD []).map (fun option =>
      let nightlyUsd := deriveNightlyRate option
      let costUsd : Option JNum :=
        match nightlyUsd with
        | some r => some ((r.mul nights).toFixed2)
        | none => option.costUsd
      { option with
        nightlyUsd := nightlyUsd.orElse (fun _ => option.nightlyUsd)
        nights := some nights
        costUsd := costUsd
        stayNights := some nights })) }

/-- `normalizeCarComponent`: normalize the component shape, then re-price
every option as daily rate × billed rental days (when a rate is derivable),
stamping the billed day count into `rentalDays`. -/
def normalizeCarComponent (component : Option TripComponent)
    (fallbackOptions : Option (List TripOption)) (computedStay : StayWindow) :
    TripComponent :=
  let base := normalizeComponent component fallbackOptions
    "Please confirm this car rental option."
  let rentalDays := carStayDays computedStay
  { base with
    options := some ((base.options.getD []).map (fun option =>
      let dailyRateUsd := deriveDailyCarRate option
      let costUsd : Option JNum :=
        match dailyRateUsd with
        | some r => some ((r.mul rentalDays).toFixed2)
        | none => option.costUsd
      { option with
        dailyRateUsd := dailyRateUsd.orElse (fun _ => option.dailyRateUsd)
        rentalDays := some rentalDays
        costUsd := costUsd })) }

/-! ### Cost aggregator -/

/-- `optionCostById`: cost of the recommended option (first option when the
recommended id is stale or missing); for options without a numeric
`costUsd`, derive nightly rate × nights; otherwise 0. -/
def optionCostById (component : Option TripComponent) : JNum :=
  match component.bind (·.options) with
  | none => .num 0
  | some [] => .num 0
  | some (o1 :: rest) =>
      let options := o1 :: rest
      let recommendedId :=
        (component.bind (·.recommendedOptionId)).orElse (fun _ => o1.id)
      let option := (options.find? (fun o => o.id = recommendedId)).getD o1
      match option.costUsd with
      | some c => c
      | none =>
          match option.nightlyUsd, option.nights with
          | some a, some b => (a.mul b).toFixed2
          | _, _ => .num 0

/-- `estimateTotals`: per-component recommended-option costs, the raw sum of
activity cost estimates, and a total that is the 2-decimal rounding of the
sum of the four (the four component fields themselves are not re-rounded). -/
def estimateTotals (itinerary : Itinerary) : CostSummary :=
  let comps := itinerary.components.getD {}
  let flightUsd := optionCostById comps.flight
  let hotelUsd := optionCostById comps.hotel
  let carRentalUsd := optionCostById comps.carRental
  let activitiesUsd :=
    match itinerary.activities with
    | some acts =>
        acts.foldl (fun sum activity => sum.add (jsNumOr activity.estimatedCostUsd 0))
          (.num 0)
    | none => .num 0
  { flightUsd := flightUsd
    hotelUsd := hotelUsd
    carRentalUsd := carRentalUsd
    activitiesUsd := activitiesUsd
    totalUsd := (((flightUsd.add hotelUsd).add carRentalUsd).add activitiesUsd).toFixed2 }

/-! ### Itinerary normalization -/

/-- `normalizeItinerary`: fill every missing field of the composed itinerary
from the validated research/safety documents and the computed stay window,
re-price hotel and car options against that window, and attach a cost
summary when the composition stage did not supply one.  A stage-supplied
`stayAtDestination` or `estimatedCostSummary` is kept verbatim. -/
def normalizeItinerary (rawItinerary : Option Itinerary) (researchJson : Research)
    (safetyJson : Safety) (preferences : TripRequest) : Itinerary :=
  let itinerary := rawItinerary.getD {}
  let computedStay := computeDestinationStay (some itinerary) researchJson preferences
  let comps := itinerary.components.getD {}
  let flight := normalizeComponent comps.flight researchJson.flightOptions
    "Please confirm this flight option."
  let hotel := normalizeHotelComponent comps.hotel researchJson.hotelOptions computedStay
  let carRental := normalizeCarComponent comps.carRental researchJson.carRentalOptions
    computedStay
  let activities :=
    match itinerary.activities with
    | some acts => acts
    | none =>
        (researchJson.activityIdeas.getD []).enum.map (fun p =>
          { name := p.2.name
            estimatedCostUsd :=
              if p.2.estimatedCostUsd = .jnull then .jnum 0 else p.2.estimatedCostUsd
            scheduledDay := some ("Day " ++ toString (p.1 + 1))
            notes := some (p.2.whyFit.getD "") })
  let next : Itinerary :=
    { tripSummary := some (itinerary.tripSummary.getD "Trip itinerary draft")
      stayAtDestination := some (itinerary.stayAtDestination.getD computedStay)
      components := some { flight := some flight, hotel := some hotel,
                           carRental := some carRental }
      activities := some activities
      safetyConcerns := some (itinerary.safetyConcerns.getD
        (safetyJson.safetyConcerns.getD []))
      packingList := some (itinerary.packingList.getD (safetyJson.packingList.getD []))
      estimatedCostSummary := itinerary.estimatedCostSummary
      disclaimer := some (itinerary.disclaimer.getD "No purchases are made in this app.") }
  { next with
    estimatedCostSummary := some (itinerary.estimatedCostSummary.getD
      (estimateTotals next)) }

/-! ### Flight-change recomputation -/

/-- The flight-option lookup of `recomputeDependentComponentsFromFlight`:
`flightComponent?.options?.find(o => o.id === confirmedFlightOptionId) ?? null`. -/
def selectedFlightFor (flightComponent : Option TripComponent)
    (confirmedFlightOptionId : String) : Option TripOption :=
  ((flightComponent.bind (·.options)).getD []).find?
    (fun o => o.id = some confirmedFlightOptionId)

/-- `recomputeDependentComponentsFromFlight`: on a clone of the itinerary,
pin the confirmed flight as recommended, recompute the stay window from its
local date parts, re-normalize the hotel and car components against the new
window, and recompute the cost summary.  When the confirmed id is not among
the flight component's options, the clone is returned unchanged (apart from
`components` being materialized when it was absent).  The source works on a
`structuredClone`, so the caller's itinerary is never mutated — in this pure
embedding that corresponds to the function returning a new value. -/
def recomputeDependentComponentsFromFlight (itinerary : Option Itinerary)
    (confirmedFlightOptionId : String) : Itinerary :=
  let next0 := itinerary.getD {}
  let comps := next0.components.getD {}
  let next1 := { next0 with components := some comps }
  match comps.flight, selectedFlightFor comps.flight confirmedFlightOptionId with
  | some flightComponent, some selectedFlight =>
      let newFlight := { flightComponent with
        recommendedOptionId := some confirmedFlightOptionId }
      let fallbackStay := next1.stayAtDestination.getD
        { arrivalLocal := selectedFlight.outboundArrivalLocal
          departureLocal := selectedFlight.returnDepartureLocal
          daysAtDestination := .jnum 1
          nightsAtDestination := .jnum 0
          calculationNote := some "Fallback stay values used." }
      let arrivalDate := extractLocalDatePart selectedFlight.outboundArrivalLocal
      let departureDate := extractLocalDatePart selectedFlight.returnDepartureLocal
      let nights := dayDiffFromLocalDates arrivalDate departureDate
      let recomputedStay :=
        match nights with
        | some n =>
            { arrivalLocal :=
                selectedFlight.outboundArrivalLocal.orElse (fun _ => fallbackStay.arrivalLocal)
              departureLocal :=
                selectedFlight.returnDepartureLocal.orElse (fun _ => fallbackStay.departureLocal)
              daysAtDestination := .jnum ((max 1 (n + 1) : ℤ) : ℚ)
              nightsAtDestination := .jnum ((max 0 n : ℤ) : ℚ)
              calculationNote := some
                "Recomputed from confirmed flight local date parts (arrival and return departure)." }
        | none => fallbackStay
      let newHotel := normalizeHotelComponent comps.hotel
        (some ((comps.hotel.bind (·.options)).getD [])) recomputedStay
      let newCarRental := normalizeCarComponent comps.carRental
        (some ((comps.carRental.bind (·.options)).getD [])) recomputedStay
      let next2 := { next1 with
        components := some { flight := some newFlight, hotel := some newHotel,
                             carRental := some newCarRental }
        stayAtDestination := some recomputedStay }
      { next2 with estimatedCostSummary := some (estimateTotals next2) }
  | _, _ => next1

/-! ### Confirmation state machine (`/api/confirm-component` handler)

`TRIP_COMPONENTS = ["flight", "hotel", "carRental"]`; the handler's
membership test on the request's `componentType` string corresponds to this
inductive (a string outside the list is the handler's `UnknownComponent`
400, and an unknown `itineraryId` is the `SessionNotFound` 404 — both are
rejected before any session state is read, so they are outside this model's
transition function). -/

/-- One of the three confirmable components, in `TRIP_COMPONENTS` order. -/
inductive ComponentType where
  | flight
  | hotel
  | carRental
deriving DecidableEq, Repr

/-- A per-component confirmation record: the selected option id and the
confirmation timestamp. -/
structure Confirmation where
  optionId : String
  confirmedAt : String
deriving DecidableEq, Repr

/-- The `confirmations` object of a stored session record (`null` means
unconfirmed). -/
structure Confirmations where
  flight : Option Confirmation := none
  hotel : Option Confirmation := none
  carRental : Option Confirmation := none
deriving DecidableEq, Repr

/-- The final-review document returned by the final-review generation stage.
Its content comes from the external generation engine; the state machine
stores it opaquely. -/
structure FinalReview where
  finalSummary : Option String := none
  finalConfirmationQuestion : Option String := none
  purchaseReminder : Option String := none
deriving DecidableEq, Repr

/-- A stored planning-session record (one entry of the server's
`itineraryStore`). -/
structure SessionRecord where
  preferences : TripRequest
  itinerary : Itinerary
  confirmations : Confirmations := {}
  finalReview : Option FinalReview := none
  finalConfirmed : Bool := false
deriving DecidableEq, Repr

/-- Read `record.itinerary.components[componentType]`. -/
def componentGet (comps : Components) : ComponentType → Option TripComponent
  | .flight => comps.flight
  | .hotel => comps.hotel
  | .carRental => comps.carRental

/-- Write `record.confirmations[componentType]`. -/
def setConfirmation (c : Confirmations) :
    ComponentType → Option Confirmation → Confirmations
  | .flight, v => { c with flight := v }
  | .hotel, v => { c with hotel := v }
  | .carRental, v => { c with carRental := v }

/-- `nextComponentToConfirm`: the first component, in `TRIP_COMPONENTS`
order, without a confirmation record; `null` when all are confirmed. -/
def nextComponentToConfirm (confirmations : Confirmations) : Option ComponentType :=
  if confirmations.flight = none then some .flight
  else if confirmations.hotel = none then some .hotel
  else if confirmations.carRental = none then some .carRental
  else none

/-- Outcome classification of one `/api/confirm-component` call. -/
inductive ConfirmOutcome where
  /-- HTTP 400: `itineraryId`, `componentType` and `optionId` are required (the
  request's `optionId` was falsy). -/
  | missingFields
  /-- HTTP 400: the component is not available in the itinerary. -/
  | componentUnavailable
  /-- HTTP 400: `Selected option is not valid for this component` — the spec's
  `OptionNotOffered` classification. -/
  | optionNotOffered
  /-- The handler dereferences `component.options` unconditionally; a stored
  component without an option list would throw a `TypeError` (unreachable
  for itineraries produced by `normalizeItinerary`). -/
  | optionsTypeError
  /-- HTTP 200: the confirmation was recorded. -/
  | ok
deriving DecidableEq, Repr

/-- HTTP status the handler answers with for each outcome. -/
def confirmHttpStatus : ConfirmOutcome → ℕ
  | .missingFields => 400
  | .componentUnavailable => 400
  | .optionNotOffered => 400
  | .optionsTypeError => 500
  | .ok => 200

/-- Result of one `/api/confirm-component` call: the outcome, the session
record afterwards (unchanged on every non-`ok` outcome), and the
`nextComponentToConfirm` value of the response. -/
structure ConfirmResult where
  outcome : ConfirmOutcome
  record : SessionRecord
  next : Option ComponentType := none
deriving DecidableEq, Repr

/-- The `/api/confirm-component` handler as a state transition on one
session record.  `confirmedAt` stands for `new Date().toISOString()` and
`finalReviewResult` for the document `createFinalReview` (an external
generation call) would return — it is only consulted when the confirmation
completes the set.  On the flight path the handler recomputes the dependent
components, resets the hotel and carRental confirmations and discards any
final review. -/
def confirmComponent (record : SessionRecord) (componentType : ComponentType)
    (optionId : String) (confirmedAt : String) (finalReviewResult : FinalReview) :
    ConfirmResult :=
  if optionId = "" then { outcome := .missingFields, record := record }
  else
    match componentGet (record.itinerary.components.getD {}) componentType with
    | none => { outcome := .componentUnavailable, record := record }
    | some component =>
        match component.options with
        | none => { outcome := .optionsTypeError, record := record }
        | some options =>
            match options.find? (fun o => o.id = some optionId) with
            | none => { outcome := .optionNotOffered, record := record }
            | some _ =>
                let record1 := { record with
                  confirmations := setConfirmation record.confirmations componentType
                    (some { optionId := optionId, confirmedAt := confirmedAt }) }
                let record2 :=
                  if componentType = .flight then
                    { record1 with
                      itinerary := recomputeDependentComponentsFromFlight
                        (some record1.itinerary) optionId
                      confirmations := { record1.confirmations with
                        hotel := none, carRental := none }
                      finalReview := none }
                  else record1
                let remaining := nextComponentToConfirm record2.confirmations
                let record3 :=
                  if remaining = none then
                    { record2 with finalReview := some finalReviewResult }
                  else record2
                { outcome := .ok, record := record3, next := remaining }

/-! ### Concrete fixtures

Data used by the scenario theorem, the counterexamples and the witnesses:
the March 2026 trip of the specification's worked scenario, plus small
degenerate inputs. -/

/-- Flight option of the worked scenario: outbound arrival local date
2026-03-22, return departure local date 2026-03-29. -/
def flightF1 : TripOption :=
  { id := some "f1"
    outboundArrivalLocal := some "2026-03-22T08:30:00+01:00"
    returnDepartureLocal := some "2026-03-29T10:00:00+01:00"
    costUsd := some (.num 1200) }

/-- Hotel option of the worked scenario: 250 USD per night. -/
def hotelH1 : TripOption :=
  { id := some "h1", nightlyUsd := some (.num 250)
    nights := some (.num 7), costUsd := some (.num 1750) }

/-- Car option of the worked scenario. -/
def carC1 : TripOption :=
  { id := some "c1", dailyRateUsd := some (.num 50)
    rentalDays := some (.num 8), costUsd := some (.num 400) }

/-- Preferences of the worked scenario: 2026-03-21 → 2026-03-29, length 8. -/
def prefsMarch : TripRequest :=
  { startCity := "Boston", destinationCity := "Barcelona"
    startDate := "2026-03-21", endDate := "2026-03-29"
    tripLengthDays := 8, activities := ["beach"]
    weatherPreferences := "warm", airTravelClass := "economy", hotelStars := "4" }

/-- Research document of the worked scenario. -/
def researchMarch : Research :=
  { flightOptions := some [flightF1], hotelOptions := some [hotelH1]
    carRentalOptions := some [carC1] }

/-- Itinerary draft of the worked scenario, as the pipeline produces it. -/
def draftMarch : Itinerary := normalizeItinerary none researchMarch {} prefsMarch

/-- Stored session of the worked scenario, fresh from `/api/plan`. -/
def sessionMarch : SessionRecord :=
  { preferences := prefsMarch, itinerary := draftMarch }

/-- Preferences with unusable (empty) dates and trip length 1. -/
def prefsNoDates : TripRequest :=
  { startCity := "Boston", destinationCity := "Xa"
    startDate := "", endDate := "", tripLengthDays := 1, activities := ["aa"]
    weatherPreferences := "warm", airTravelClass := "economy", hotelStars := "3" }

/-- A hotel option with an explicit 100 USD nightly rate and nothing else. -/
def hotelNightly100 : TripOption := { id := some "h1", nightlyUsd := some (.num 100) }

/-- A stay window with zero nights at the destination. -/
def stayZeroNights : StayWindow :=
  { daysAtDestination := .jnum 1, nightsAtDestination := .jnum 0 }

/-- A stay window whose day/night counts are truthy non-numeric strings
(as raw agent JSON may contain). -/
def stayNonNumeric : StayWindow :=
  { daysAtDestination := .jstr "unknown", nightsAtDestination := .jstr "unknown" }

/-- A stay window violating the day/night bounds, as an agent could emit. -/
def stayNegative : StayWindow :=
  { daysAtDestination := .jnum 0, nightsAtDestination := .jnum (-1) }

/-- A raw composed itinerary that carries its own (bad) stay window. -/
def rawWithBadStay : Itinerary := { stayAtDestination := some stayNegative }

/-- An itinerary whose `components` object is present but has no flight
component. -/
def itineraryNoFlight : Itinerary :=
  { components := some { hotel := some { options := some [hotelH1] } } }

/-- An itinerary with one 0.004-USD activity and no component options. -/
def itinerarySubCent : Itinerary :=
  { components := some {}, activities := some [{ estimatedCostUsd := .jnum (1/250) }] }

/-! ### Helper lemmas -/

/-- `Number(v || d)` yields the default on falsy input. -/
theorem jsNumOr_falsy {v : JVal} (d : ℚ) (h : v.truthy = false) :
    jsNumOr v d = .num d := by
  simp [jsNumOr, h]

/-- `Math.max(1, Number(v || 1))` is exactly 1 on falsy input. -/
theorem jsMaxOne_jsNumOr_falsy {v : JVal} (h : v.truthy = false) :
    jsMaxOne (jsNumOr v 1) = .num 1 := by
  rw [jsNumOr_falsy 1 h]
  simp [jsMaxOne]

/-- `Math.max(1, Number(v || 1))` on a numeric input is a rational at
least 1. -/
theorem jsMaxOne_jsNumOr_jnum (q : ℚ) :
    ∃ m : ℚ, jsMaxOne (jsNumOr (.jnum q) 1) = .num m ∧ 1 ≤ m := by
  by_cases h : q = 0
  · subst h
    exact ⟨1, by simp [jsNumOr, JVal.truthy, jsMaxOne], le_refl 1⟩
  · refine ⟨max 1 q, ?_, le_max_left 1 q⟩
    simp [jsNumOr, JVal.truthy, h, JVal.toNumber, jsMaxOne]

/-- When no nightly rate is derivable, the option had no numeric nightly
rate to begin with. -/
theorem deriveNightlyRate_eq_none {option : TripOption}
    (h : deriveNightlyRate option = none) : option.nightlyUsd = none := by
  cases hn : option.nightlyUsd with
  | none => rfl
  | some n => rw [deriveNightlyRate, hn] at h; exact absurd h (by simp)

/-- When no daily rate is derivable, the option had no numeric daily rate
to begin with. -/
theorem deriveDailyCarRate_eq_none {option : TripOption}
    (h : deriveDailyCarRate option = none) : option.dailyRateUsd = none := by
  cases hn : option.dailyRateUsd with
  | none => rfl
  | some n => rw [deriveDailyCarRate, hn] at h; exact absurd h (by simp)

/-- Every option in a normalized hotel component carries the billed night
count in `nights` and `stayNights`, and its total cost is the rounded
product of its nightly rate and that count whenever it carries a rate. -/
theorem mem_normalizeHotelComponent_options {component : Option TripComponent}
    {fallbackOptions : Option (List TripOption)} {computedStay : StayWindow}
    {o : TripOption}
    (h : o ∈ (normalizeHotelComponent component fallbackOptions computedStay).options.getD []) :
    o.nights = some (hotelStayNights computedStay) ∧
    o.stayNights = some (hotelStayNights computedStay) ∧
    ∀ r, o.nightlyUsd = some r →
      o.costUsd = some ((r.mul (hotelStayNights computedStay)).toFixed2) := by
  rw [normalizeHotelComponent] at h
  simp only [Option.getD_some, List.mem_map] at h
  obtain ⟨src, _, rfl⟩ := h
  cases hd : deriveNightlyRate src with
  | some r0 =>
      refine ⟨by simp [hd], by simp [hd], ?_⟩
      intro r hr
      simp only [hd, Option.orElse, Option.some.injEq] at hr
      subst hr
      simp [hd]
  | none =>
      refine ⟨by simp [hd], by simp [hd], ?_⟩
      intro r hr
      simp [hd, deriveNightlyRate_eq_none hd, Option.orElse] at hr

/-- Every option in a normalized car component carries the billed rental-day
count, and its total cost is the rounded product of its daily rate and that
count whenever it carries a rate. -/
theorem mem_normalizeCarComponent_options {component : Option TripComponent}
    {fallbackOptions : Option (List TripOption)} {computedStay : StayWindow}
    {o : TripOption}
    (h : o ∈ (normalizeCarComponent component fallbackOptions computedStay).options.getD []) :
    o.rentalDays = some (carStayDays computedStay) ∧
    ∀ r, o.dailyRateUsd = some r →
      o.costUsd = some ((r.mul (carStayDays computedStay)).toFixed2) := by
  rw [normalizeCarComponent] at h
  simp only [Option.getD_some, List.mem_map] at h
  obtain ⟨src, _, rfl⟩ := h
  cases hd : deriveDailyCarRate src with
  | some r0 =>
      refine ⟨by simp [hd], ?_⟩
      intro r hr
      simp only [hd, Option.orElse, Option.some.injEq] at hr
      subst hr
      simp [hd]
  | none =>
      refine ⟨by simp [hd], ?_⟩
      intro r hr
      simp [hd, deriveDailyCarRate_eq_none hd, Option.orElse] at hr

/-- The baseline stay window always has at least one day and a non-negative
night count. -/
theorem computeBaselineStay_bounds (preferences : TripRequest) :
    ∃ d n : ℚ,
      (computeBaselineStay preferences).daysAtDestination = .jnum d ∧
      (computeBaselineStay preferences).nightsAtDestination = .jnum n ∧
      1 ≤ d ∧ 0 ≤ n := by
  rw [computeBaselineStay]
  cases baselineDatesUsable preferences with
  | none =>
      refine ⟨max 1 (tripLengthOrOne preferences),
        max 1 (tripLengthOrOne preferences - 1), rfl, rfl,
        le_max_left _ _, le_trans zero_le_one (le_max_left _ _)⟩
  | some p =>
      refine ⟨((max 1 (p.2 - p.1) : ℤ) : ℚ), ((max 0 (p.2 - p.1 - 1) : ℤ) : ℚ),
        rfl, rfl, ?_, ?_⟩
      · exact_mod_cast le_max_left 1 (p.2 - p.1)
      · exact_mod_cast le_max_left 0 (p.2 - p.1 - 1)

section ConcreteEvaluation

/- The concrete theorems below evaluate the embedded functions on literal
inputs with `decide`; Batteries seals the rational ring operations behind
`[irreducible]`, which is lifted locally so the evaluator can unfold them
(the kernel, which re-checks every proof, ignores reducibility settings). -/
attribute [local semireducible] Rat.add Rat.mul Rat.inv Rat.sub

/-! ### Claim C2 — cost summary exactness -/

/-- C2 counterexample: for an itinerary holding a single 0.004-USD activity
and no component options, `estimateTotals` reports `activitiesUsd = 0.004`
unrounded while `totalUsd` is the independently rounded value 0, so
`totalUsd` differs from the exact sum of the four component fields and the
fields are not all rounded to 2 decimal places. -/
theorem estimateTotals_exact_sum_counterexample :
    (estimateTotals itinerarySubCent).flightUsd = .num 0 ∧
    (estimateTotals itinerarySubCent).hotelUsd = .num 0 ∧
    (estimateTotals itinerarySubCent).carRentalUsd = .num 0 ∧
    (estimateTotals itinerarySubCent).activitiesUsd = .num (1/250) ∧
    (estimateTotals itinerarySubCent).totalUsd = .num 0 ∧
    (0 : ℚ) ≠ 0 + 0 + 0 + 1/250 ∧
    round2 (1/250) ≠ 1/250 := by
  decide

/-- A rational that is a whole number of cents. -/
def isCents (q : ℚ) : Prop := ∃ k : ℤ, q = (k : ℚ) / 100

/-- Rounding to 2 decimals fixes whole-cent amounts. -/
theorem round2_isCents {q : ℚ} (h : isCents q) : round2 q = q := by
  obtain ⟨k, rfl⟩ := h
  rw [round2, div_mul_cancel₀ (k : ℚ) (by norm_num)]
  rw [round_intCast]

/-- Whole-cent amounts are closed under addition. -/
theorem isCents_add {a b : ℚ} (ha : isCents a) (hb : isCents b) :
    isCents (a + b) := by
  obtain ⟨k, rfl⟩ := ha
  obtain ⟨l, rfl⟩ := hb
  exact ⟨k + l, by push_cast; ring⟩

/-- C2 amended: `estimateTotals` sets `totalUsd` to the 2-decimal rounding
of the sum of the four component fields (which are themselves passed through
unrounded); whenever all four are whole-cent amounts the rounding is the
identity, so `totalUsd` is then the exact sum. -/
theorem estimateTotals_total_is_rounded_sum (itinerary : Itinerary) :
    (estimateTotals itinerary).totalUsd =
      ((((estimateTotals itinerary).flightUsd.add
          (estimateTotals itinerary).hotelUsd).add
          (estimateTotals itinerary).carRentalUsd).add
          (estimateTotals itinerary).activitiesUsd).toFixed2 ∧
    ∀ a b c d : ℚ,
      (estimateTotals itinerary).flightUsd = .num a →
      (estimateTotals itinerary).hotelUsd = .num b →
      (estimateTotals itinerary).carRentalUsd = .num c →
      (estimateTotals itinerary).activitiesUsd = .num d →
      isCents a → isCents b → isCents c → isCents d →
      (estimateTotals itinerary).totalUsd = .num (a + b + c + d) := by
  refine ⟨rfl, ?_⟩
  intro a b c d ha hb hc hd ca cb cc cd
  have base : (estimateTotals itinerary).totalUsd =
      ((((estimateTotals itinerary).flightUsd.add
          (estimateTotals itinerary).hotelUsd).add
          (estimateTotals itinerary).carRentalUsd).add
          (estimateTotals itinerary).activitiesUsd).toFixed2 := rfl
  rw [ha, hb, hc, hd] at base
  simp only [JNum.add, JNum.toFixed2] at base
  rw [base, round2_isCents (isCents_add (isCents_add (isCents_add ca cb) cc) cd)]

/-- C2 witness: a concrete whole-cent itinerary on which the amended total
is the exact sum of the four component fields. -/
theorem estimateTotals_total_is_rounded_sum_witness :
    (estimateTotals draftMarch).flightUsd = .num 1200 ∧
    (estimateTotals draftMarch).totalUsd = .num (1200 + 1750 + 400 + 0) := by
  refine ⟨by decide, ?_⟩
  exact (estimateTotals_total_is_rounded_sum draftMarch).2 1200 1750 400 0
    (by decide) (by decide) (by decide) (by decide)
    ⟨120000, by norm_num⟩ ⟨175000, by norm_num⟩ ⟨40000, by norm_num⟩ ⟨0, by norm_num⟩

/-! ### Claim C3 — hotel/car pricing consistency -/

/-- C3 counterexample: with a stay window of zero nights at the destination
and a hotel option with an explicit 100 USD nightly rate, normalization
prices the option at 100 USD (one billed night), not at
nightly rate × StayWindow nights = 0. -/
theorem hotel_cost_times_stay_nights_counterexample :
    ((normalizeHotelComponent (some { options := some [hotelNightly100] }) none
        stayZeroNights).options.getD []).map (·.costUsd) = [some (.num 100)] ∧
    stayZeroNights.nightsAtDestination = .jnum 0 ∧
    ((JNum.num 100).mul (.num 0)).toFixed2 = .num 0 ∧
    some (JNum.num 100) ≠ some (JNum.num 0) := by
  decide

/-- C3 amended: after normalization every hotel option carries the billed
night count `max(1, Number(stay.nightsAtDestination || 1))` in `nights` and
`stayNights`, and its total cost is the rounded product of its (explicit or
derived) nightly rate and that billed count whenever such a rate exists —
options with no derivable rate keep their original total cost and carry no
nightly rate; the car component behaves the same way with the daily rate
and `max(1, Number(stay.daysAtDestination || 1))` rental days. -/
theorem normalize_hotel_car_rate_consistency (component : Option TripComponent)
    (fallbackOptions : Option (List TripOption)) (computedStay : StayWindow)
    (o : TripOption) :
    (o ∈ (normalizeHotelComponent component fallbackOptions computedStay).options.getD [] →
      o.nights = some (hotelStayNights computedStay) ∧
      o.stayNights = some (hotelStayNights computedStay) ∧
      ∀ r, o.nightlyUsd = some r →
        o.costUsd = some ((r.mul (hotelStayNights computedStay)).toFixed2)) ∧
    (o ∈ (normalizeCarComponent component fallbackOptions computedStay).options.getD [] →
      o.rentalDays = some (carStayDays computedStay) ∧
      ∀ r, o.dailyRateUsd = some r →
        o.costUsd = some ((r.mul (carStayDays computedStay)).toFixed2)) :=
  ⟨fun h => mem_normalizeHotelComponent_options h,
   fun h => mem_normalizeCarComponent_options h⟩

/-- A seven-night, eight-day stay window. -/
def staySeven : StayWindow :=
  { daysAtDestination := .jnum 8, nightsAtDestination := .jnum 7 }

/-- The scenario hotel option after normalization against `staySeven`. -/
def hotelH1Billed : TripOption :=
  { hotelH1 with
    nightlyUsd := some (.num 250)
    nights := some (.num 7)
    stayNights := some (.num 7)
    costUsd := some (.num 1750) }

/-- C3 witness: the scenario hotel option, normalized against a seven-night
stay, is billed seven nights at 250 USD for a 1750 USD total. -/
theorem normalize_hotel_car_rate_consistency_witness :
    hotelStayNights staySeven = .num 7 ∧
    ((normalizeHotelComponent (some { options := some [hotelH1] }) none
        staySeven).options.getD []) = [hotelH1Billed] ∧
    hotelH1Billed.costUsd = some (((JNum.num 250).mul (hotelStayNights staySeven)).toFixed2) := by
  refine ⟨by decide, by decide, ?_⟩
  exact ((normalize_hotel_car_rate_consistency
    (some { options := some [hotelH1] }) none staySeven hotelH1Billed).1
    (by decide)).2.2 (.num 250) (by decide)

/-! ### Claim C4 — stay-window bounds -/

/-- C4 counterexample: the preferences are accepted by
`validateTripRequest`, yet the successfully produced draft's StayWindow has
`daysAtDestination = 0 < 1`, because `normalizeItinerary` keeps a
stage-supplied `stayAtDestination` verbatim instead of the calculator's
window. -/
theorem draft_stay_window_bounds_counterexample :
    validateTripRequest prefsMarch = true ∧
    (normalizeItinerary (some rawWithBadStay) researchMarch {} prefsMarch).stayAtDestination
      = some stayNegative ∧
    stayNegative.daysAtDestination = .jnum 0 ∧
    stayNegative.nightsAtDestination = .jnum (-1) ∧
    ¬ ((1 : ℚ) ≤ 0 ∧ (0 : ℚ) ≤ -1) := by
  decide

/-- C4 amended: for every input (valid preferences included), the stay
calculator's window satisfies `daysAtDestination ≥ 1` and
`nightsAtDestination ≥ 0`, and the produced draft carries exactly that
window whenever the composition stage did not supply a `stayAtDestination`
of its own (a stage-supplied window is kept verbatim and may violate the
bounds). -/
theorem compute_destination_stay_bounds (rawItinerary : Option Itinerary)
    (researchJson : Research) (safetyJson : Safety) (preferences : TripRequest) :
    (∃ d n : ℚ,
      (computeDestinationStay (some (rawItinerary.getD {})) researchJson
        preferences).daysAtDestination = .jnum d ∧
      (computeDestinationStay (some (rawItinerary.getD {})) researchJson
        preferences).nightsAtDestination = .jnum n ∧
      1 ≤ d ∧ 0 ≤ n) ∧
    ((rawItinerary.getD {}).stayAtDestination = none →
      (normalizeItinerary rawItinerary researchJson safetyJson preferences).stayAtDestination
        = some (computeDestinationStay (some (rawItinerary.getD {})) researchJson
            preferences)) := by
  constructor
  · rw [computeDestinationStay]
    cases hq : dayDiffFromLocalDates
        (extractLocalDatePart (((((some (rawItinerary.getD {})).bind
          (·.components)).bind (·.flight)).bind (·.recommendedOptionId) |>
            fun preferredFlightId =>
              ((researchJson.flightOptions.getD []).find?
                (fun o => o.id = preferredFlightId)).orElse
                (fun _ => (researchJson.flightOptions.getD []).head?)).bind
          (·.outboundArrivalLocal)))
        (extractLocalDatePart (((((some (rawItinerary.getD {})).bind
          (·.components)).bind (·.flight)).bind (·.recommendedOptionId) |>
            fun preferredFlightId =>
              ((researchJson.flightOptions.getD []).find?
                (fun o => o.id = preferredFlightId)).orElse
                (fun _ => (researchJson.flightOptions.getD []).head?)).bind
          (·.returnDepartureLocal))) with
    | none =>
        simp only [hq]
        obtain ⟨d, n, hd, hn, h1, h0⟩ := computeBaselineStay_bounds preferences
        exact ⟨d, n, hd, hn, h1, h0⟩
    | some n =>
        simp only [hq]
        by_cases h0n : 0 ≤ n
        · rw [if_pos h0n]
          refine ⟨((max 0 n + 1 : ℤ) : ℚ), ((max 0 n : ℤ) : ℚ), rfl, rfl, ?_, ?_⟩
          · exact_mod_cast Int.add_le_add_right (le_max_left 0 n) 1
          · exact_mod_cast le_max_left 0 n
        · rw [if_neg h0n]
          obtain ⟨d, n', hd, hn, h1, h0⟩ := computeBaselineStay_bounds preferences
          exact ⟨d, n', hd, hn, h1, h0⟩
  · intro hnone
    rw [normalizeItinerary, hnone]
    rfl

/-- C4 witness: on the scenario inputs with no stage-supplied stay window,
the draft's StayWindow is the calculator's and meets the bounds. -/
theorem compute_destination_stay_bounds_witness :
    (normalizeItinerary none researchMarch {} prefsMarch).stayAtDestination
      = some (computeDestinationStay (some ((none : Option Itinerary).getD {}))
          researchMarch prefsMarch) ∧
    ∃ d n : ℚ,
      (computeDestinationStay (some ((none : Option Itinerary).getD {})) researchMarch
        prefsMarch).daysAtDestination = .jnum d ∧
      (computeDestinationStay (some ((none : Option Itinerary).getD {})) researchMarch
        prefsMarch).nightsAtDestination = .jnum n ∧
      1 ≤ d ∧ 0 ≤ n :=
  ⟨(compute_destination_stay_bounds none researchMarch {} prefsMarch).2 rfl,
   (compute_destination_stay_bounds none researchMarch {} prefsMarch).1⟩

/-! ### Claim C5 — trip-length fallback of the baseline stay -/

/-- C5 counterexample: with unusable (empty) dates and trip length 1, the
calculator returns `nightsAtDestination = 1` — `Math.max(1, len - 1)` — not
the claimed `max(0, len - 1) = 0`. -/
theorem baseline_nights_floor_counterexample :
    (computeBaselineStay prefsNoDates).nightsAtDestination = .jnum 1 ∧
    prefsNoDates.tripLengthDays = 1 ∧
    JVal.jnum 1 ≠ .jnum (max 0 (1 - 1 : ℚ)) := by
  decide

/-- C5 amended: when the start/end dates are unusable (missing, unparsable,
or end not after start), both estimates default from the caller-supplied
trip length: `daysAtDestination = max(1, len)` and
`nightsAtDestination = max(1, len - 1)` — the night count is floored at 1,
not 0 (a zero trip length is falsy and is first replaced by 1). -/
theorem compute_baseline_stay_trip_length_fallback (preferences : TripRequest)
    (h : baselineDatesUsable preferences = none) :
    computeBaselineStay preferences =
      { arrivalLocal := some preferences.startDate
        departureLocal := some preferences.endDate
        daysAtDestination := .jnum (max 1 (tripLengthOrOne preferences))
        nightsAtDestination := .jnum (max 1 (tripLengthOrOne preferences - 1))
        calculationNote := none } := by
  rw [computeBaselineStay, h]
  rfl

/-- C5 witness: the fallback on the empty-date, length-1 preferences. -/
theorem compute_baseline_stay_trip_length_fallback_witness :
    baselineDatesUsable prefsNoDates = none ∧
    computeBaselineStay prefsNoDates =
      { arrivalLocal := some prefsNoDates.startDate
        departureLocal := some prefsNoDates.endDate
        daysAtDestination := .jnum (max 1 (tripLengthOrOne prefsNoDates))
        nightsAtDestination := .jnum (max 1 (tripLengthOrOne prefsNoDates - 1))
        calculationNote := none } :=
  ⟨rfl, compute_baseline_stay_trip_length_fallback prefsNoDates rfl⟩

/-! ### Claim C8 — component normalizer defaults -/

/-- C8 counterexample: when the stage component is absent and the fallback
option list is empty/absent, the normalizer returns an empty option list
(with the recommended id defaulting to the placeholder `"option_1"`), so the
returned TripComponent's option list is not non-empty for every input. -/
theorem normalize_component_non_empty_counterexample :
    (normalizeComponent none none "Q").options = some ([] : List TripOption) ∧
    (normalizeComponent none none "Q").recommendedOptionId = some "option_1" ∧
    ((normalizeComponent none none "Q").options.getD []).length = 0 := by
  decide

/-- C8 amended: the normalizer returns a TripComponent whose option list is
non-empty whenever the stage component carried a non-empty list or the
supplied fallback list is non-empty (with both empty the result is empty);
the recommended id defaults to the first option's id — `"option_1"` when
there are no options — when the stage supplied none, and the confirmation
question defaults to the fallback text when the stage supplied none. -/
theorem normalize_component_defaults (component : Option TripComponent)
    (fallbackOptions : Option (List TripOption)) (fallbackQuestion : String) :
    ((component.bind (·.options)).getD [] ≠ [] ∨ fallbackOptions.getD [] ≠ [] →
      (normalizeComponent component fallbackOptions fallbackQuestion).options.getD [] ≠ []) ∧
    (component.bind (·.recommendedOptionId) = none →
      (normalizeComponent component fallbackOptions fallbackQuestion).recommendedOptionId =
        some (((((normalizeComponent component fallbackOptions
          fallbackQuestion).options.getD []).head?).bind (·.id)).getD "option_1")) ∧
    (component.bind (·.confirmationQuestion) = none →
      (normalizeComponent component fallbackOptions fallbackQuestion).confirmationQuestion =
        some fallbackQuestion) := by
  refine ⟨?_, ?_, ?_⟩
  · intro hne
    rw [normalizeComponent]
    cases hco : component.bind (·.options) with
    | none =>
        rcases hne with hne | hne
        · rw [hco] at hne; exact absurd rfl hne
        · simpa using hne
    | some l =>
        cases l with
        | nil =>
            rcases hne with hne | hne
            · rw [hco] at hne; exact absurd rfl hne
            · simpa using hne
        | cons o rest => simp
  · intro hrec
    rw [normalizeComponent, hrec]
    cases hco : component.bind (·.options) with
    | none => rfl
    | some l => cases l <;> rfl
  · intro hq
    rw [normalizeComponent, hq]
    rfl

/-- C8 witness: with an absent stage component and the scenario's research
hotel list as fallback, the normalizer produces that non-empty list, the
first option's id as recommendation, and the fallback question. -/
theorem normalize_component_defaults_witness :
    (normalizeComponent none (some [hotelH1]) "Confirm?").options.getD [] ≠ [] ∧
    (normalizeComponent none (some [hotelH1]) "Confirm?").recommendedOptionId =
      some ((((normalizeComponent none (some [hotelH1]) "Confirm?").options.getD
        []).head?.bind (·.id)).getD "option_1") ∧
    (normalizeComponent none (some [hotelH1]) "Confirm?").confirmationQuestion =
      some "Confirm?" :=
  ⟨(normalize_component_defaults none (some [hotelH1]) "Confirm?").1
     (Or.inr (by decide)),
   (normalize_component_defaults none (some [hotelH1]) "Confirm?").2.1 rfl,
   (normalize_component_defaults none (some [hotelH1]) "Confirm?").2.2 rfl⟩

/-! ### Claim C9 — recomputation does not disturb the draft on a failed
flight lookup -/

/-- C9: `recomputeDependentComponentsFromFlight` is a pure function of its
arguments (the source operates on a `structuredClone`, never on the caller's
object), and when the confirmed flight option id is not found among the
flight component's options the returned itinerary is the input itself: stay
window, components and cost summary included. -/
theorem recompute_identity_when_flight_not_found (itinerary : Itinerary)
    (comps : Components) (confirmedFlightOptionId : String)
    (hc : itinerary.components = some comps)
    (hf : selectedFlightFor comps.flight confirmedFlightOptionId = none) :
    recomputeDependentComponentsFromFlight (some itinerary) confirmedFlightOptionId
      = itinerary := by
  rw [recomputeDependentComponentsFromFlight]
  simp only [Option.getD_some, hc]
  cases hfl : comps.flight with
  | none => rw [← hc]
  | some fc =>
      rw [hfl] at hf
      rw [hf, ← hc]

/-- C9 witness: recomputing with an unknown flight id leaves the scenario
draft untouched. -/
theorem recompute_identity_when_flight_not_found_witness :
    recomputeDependentComponentsFromFlight (some itineraryNoFlight) "zz"
      = itineraryNoFlight ∧
    recomputeDependentComponentsFromFlight (some draftMarch) "not-an-option"
      = draftMarch := by
  constructor
  · exact recompute_identity_when_flight_not_found itineraryNoFlight
      { hotel := some { options := some [hotelH1] } } "zz" rfl rfl
  · exact recompute_identity_when_flight_not_found draftMarch
      ((draftMarch.components).getD {}) "not-an-option" (by decide) (by decide)

/-! ### Claim C10 — clamping of billed nights and rental days -/

/-- C10 counterexample: a stay window whose `nightsAtDestination` is the
truthy non-numeric string `"unknown"` is coerced with `Number(...)` to
`NaN`, and `Math.max(1, NaN)` is `NaN`, so the normalized hotel option's
`nights` is `NaN`, not the claimed 1 — and its cost is `NaN`, not
`nightlyUsd × 1`. -/
theorem clamp_stay_units_counterexample :
    stayNonNumeric.nightsAtDestination = .jstr "unknown" ∧
    ((normalizeHotelComponent (some { options := some [hotelNightly100] }) none
        stayNonNumeric).options.getD []).map (·.nights) = [some .nan] ∧
    ((normalizeHotelComponent (some { options := some [hotelNightly100] }) none
        stayNonNumeric).options.getD []).map (·.costUsd) = [some .nan] ∧
    some JNum.nan ≠ some (JNum.num 1) := by
  decide

/-- C10 amended: the billed duration is clamped to at least one unit for
falsy or numeric stay fields: when `nightsAtDestination` is 0, missing, or
otherwise falsy, every normalized hotel option gets `nights = 1` and a
derivable-rate cost of `nightlyUsd × 1`; when `daysAtDestination` is falsy
or any rational number, every normalized car option's `rentalDays` is a
rational at least 1.  A truthy non-numeric stay field is instead coerced
with JS `Number(...)` and may propagate `NaN`. -/
theorem clamp_stay_units_falsy_or_numeric (component : Option TripComponent)
    (fallbackOptions : Option (List TripOption)) (computedStay : StayWindow)
    (o : TripOption) :
    (computedStay.nightsAtDestination.truthy = false →
      hotelStayNights computedStay = .num 1 ∧
      (o ∈ (normalizeHotelComponent component fallbackOptions computedStay).options.getD [] →
        o.nights = some (.num 1) ∧
        ∀ r, o.nightlyUsd = some r → o.costUsd = some ((r.mul (.num 1)).toFixed2))) ∧
    (computedStay.daysAtDestination.truthy = false ∨
        (∃ q : ℚ, computedStay.daysAtDestination = .jnum q) →
      ∃ m : ℚ, carStayDays computedStay = .num m ∧ 1 ≤ m ∧
        (o ∈ (normalizeCarComponent component fallbackOptions computedStay).options.getD [] →
          o.rentalDays = some (.num m))) := by
  constructor
  · intro hfal
    have hn : hotelStayNights computedStay = .num 1 := jsMaxOne_jsNumOr_falsy hfal
    refine ⟨hn, fun hmem => ?_⟩
    obtain ⟨h1, _, h3⟩ := mem_normalizeHotelComponent_options hmem
    rw [hn] at h1 h3
    exact ⟨h1, h3⟩
  · intro hcase
    have hex : ∃ m : ℚ, carStayDays computedStay = .num m ∧ 1 ≤ m := by
      rcases hcase with hfal | ⟨q, hq⟩
      · exact ⟨1, jsMaxOne_jsNumOr_falsy hfal, le_refl 1⟩
      · rw [carStayDays, hq]
        exact jsMaxOne_jsNumOr_jnum q
    obtain ⟨m, hm, h1m⟩ := hex
    refine ⟨m, hm, h1m, fun hmem => ?_⟩
    have := (mem_normalizeCarComponent_options hmem).1
    rw [hm] at this
    exact this

/-- C10 witness: with `nightsAtDestination = 0` (falsy) and
`daysAtDestination = 1`, the normalized hotel option is billed one night at
its 100 USD rate and the normalized car option gets one rental day. -/
theorem clamp_stay_units_falsy_or_numeric_witness :
    hotelStayNights stayZeroNights = .num 1 ∧
    ∃ m : ℚ, carStayDays stayZeroNights = .num m ∧ 1 ≤ m := by
  refine ⟨((clamp_stay_units_falsy_or_numeric (some { options := some [hotelNightly100] })
    none stayZeroNights hotelNightly100).1 (by decide)).1, ?_⟩
  obtain ⟨m, hm, h1m, _⟩ := (clamp_stay_units_falsy_or_numeric
    (some { options := some [hotelNightly100] }) none stayZeroNights
    hotelNightly100).2 (Or.inr ⟨1, rfl⟩)
  exact ⟨m, hm, h1m⟩

/-! ### Claim C6 — rejecting an option not offered -/

/-- C6: for every session and every component among flight/hotel/carRental,
confirming an optionId that is not among that component's current option
list answers with the `OptionNotOffered` classification (HTTP 400) and
leaves the whole session record — itinerary, confirmation records and
finalReview — unchanged. -/
theorem confirm_unknown_option_rejected (record : SessionRecord)
    (componentType : ComponentType) (optionId confirmedAt : String)
    (finalReviewResult : FinalReview) (component : TripComponent)
    (options : List TripOption)
    (hid : optionId ≠ "")
    (hcomp : componentGet (record.itinerary.components.getD {}) componentType
      = some component)
    (hopts : component.options = some options)
    (hfind : options.find? (fun o => o.id = some optionId) = none) :
    confirmComponent record componentType optionId confirmedAt finalReviewResult
      = { outcome := .optionNotOffered, record := record, next := none } ∧
    confirmHttpStatus .optionNotOffered = 400 := by
  constructor
  · simp only [confirmComponent, if_neg hid, hcomp, hopts, hfind]
  · rfl

/-- C6 witness: confirming the unknown hotel option id `"nope"` on the
scenario session is rejected and the record is untouched. -/
theorem confirm_unknown_option_rejected_witness :
    confirmComponent sessionMarch .hotel "nope" "t3" {}
      = { outcome := .optionNotOffered, record := sessionMarch, next := none } ∧
    confirmHttpStatus .optionNotOffered = 400 :=
  confirm_unknown_option_rejected sessionMarch .hotel "nope" "t3" {}
    ((sessionMarch.itinerary.components.getD {}).hotel.getD {})
    (((sessionMarch.itinerary.components.getD {}).hotel.getD {}).options.getD [])
    (by decide) (by decide) (by decide) (by decide)

/-! ### Claim C1 — flight confirmation cascade -/

/-- C1: a successful confirm of the flight component records the flight
confirmation, resets both the hotel and carRental confirmation records to
null, discards any FinalReview, recomputes the itinerary's dependent
components from the confirmed flight, and reports hotel as the next
component to confirm — for every prior confirmation state and any prior
FinalReview. -/
theorem confirm_flight_resets_dependents (record : SessionRecord)
    (optionId confirmedAt : String) (finalReviewResult : FinalReview)
    (component : TripComponent) (options : List TripOption) (chosen : TripOption)
    (hid : optionId ≠ "")
    (hcomp : componentGet (record.itinerary.components.getD {}) .flight
      = some component)
    (hopts : component.options = some options)
    (hfind : options.find? (fun o => o.id = some optionId) = some chosen) :
    (confirmComponent record .flight optionId confirmedAt finalReviewResult).outcome
      = .ok ∧
    (confirmComponent record .flight optionId confirmedAt
      finalReviewResult).record.confirmations.flight
      = some { optionId := optionId, confirmedAt := confirmedAt } ∧
    (confirmComponent record .flight optionId confirmedAt
      finalReviewResult).record.confirmations.hotel = none ∧
    (confirmComponent record .flight optionId confirmedAt
      finalReviewResult).record.confirmations.carRental = none ∧
    (confirmComponent record .flight optionId confirmedAt
      finalReviewResult).record.finalReview = none ∧
    (confirmComponent record .flight optionId confirmedAt
      finalReviewResult).record.itinerary
      = recomputeDependentComponentsFromFlight (some record.itinerary) optionId ∧
    (confirmComponent record .flight optionId confirmedAt
      finalReviewResult).next = some .hotel := by
  simp only [confirmComponent, if_neg hid, hcomp, hopts, hfind]
  simp [setConfirmation, nextComponentToConfirm]

/-- C1 witness: on the scenario session with hotel and carRental already
confirmed and a FinalReview present, re-confirming the flight clears both
dependent confirmations and the FinalReview. -/
theorem confirm_flight_resets_dependents_witness :
    (confirmComponent
      { sessionMarch with
        confirmations :=
          { flight := some { optionId := "f1", confirmedAt := "t0" }
            hotel := some { optionId := "h1", confirmedAt := "t0" }
            carRental := some { optionId := "c1", confirmedAt := "t0" } }
        finalReview := some { finalSummary := some "s" } }
      .flight "f1" "t1" {}).record.confirmations.hotel = none ∧
    (confirmComponent
      { sessionMarch with
        confirmations :=
          { flight := some { optionId := "f1", confirmedAt := "t0" }
            hotel := some { optionId := "h1", confirmedAt := "t0" }
            carRental := some { optionId := "c1", confirmedAt := "t0" } }
        finalReview := some { finalSummary := some "s" } }
      .flight "f1" "t1" {}).record.finalReview = none := by
  have h := confirm_flight_resets_dependents
    { sessionMarch with
      confirmations :=
        { flight := some { optionId := "f1", confirmedAt := "t0" }
          hotel := some { optionId := "h1", confirmedAt := "t0" }
          carRental := some { optionId := "c1", confirmedAt := "t0" } }
      finalReview := some { finalSummary := some "s" } }
    "f1" "t1" {}
    ((sessionMarch.itinerary.components.getD {}).flight.getD {})
    (((sessionMarch.itinerary.components.getD {}).flight.getD {}).options.getD [])
    flightF1 (by decide) (by decide) (by decide) (by decide)
  exact ⟨h.2.2.1, h.2.2.2.2.1⟩

/-! ### Claim C7 — the worked March 2026 scenario -/

/-- The scenario session after confirming flight `f1`. -/
def sessionAfterFlight : SessionRecord :=
  (confirmComponent sessionMarch .flight "f1" "t1" {}).record

/-- The scenario session after then confirming hotel `h1`. -/
def sessionAfterHotel : SessionRecord :=
  (confirmComponent sessionAfterFlight .hotel "h1" "t2" {}).record

/-- C7: on preferences 2026-03-21 → 2026-03-29 with trip length 8 and the
flight whose outbound-arrival local date is 2026-03-22 and return-departure
local date is 2026-03-29, the stay calculator yields 8 days and 7 nights at
the destination; confirming that flight and then the 250-USD-per-night
hotel leaves the confirmed hotel option priced at exactly 1750 USD. -/
theorem scenario_march_2026 :
    validateTripRequest prefsMarch = true ∧
    (computeDestinationStay (some ({} : Itinerary)) researchMarch
      prefsMarch).daysAtDestination = .jnum 8 ∧
    (computeDestinationStay (some ({} : Itinerary)) researchMarch
      prefsMarch).nightsAtDestination = .jnum 7 ∧
    (confirmComponent sessionMarch .flight "f1" "t1" {}).outcome = .ok ∧
    sessionAfterFlight.itinerary.stayAtDestination.map (·.daysAtDestination)
      = some (.jnum 8) ∧
    sessionAfterFlight.itinerary.stayAtDestination.map (·.nightsAtDestination)
      = some (.jnum 7) ∧
    (confirmComponent sessionAfterFlight .hotel "h1" "t2" {}).outcome = .ok ∧
    sessionAfterHotel.confirmations.hotel
      = some { optionId := "h1", confirmedAt := "t2" } ∧
    ((((sessionAfterHotel.itinerary.components.bind (·.hotel)).bind
        (·.options)).getD []).find? (fun o => o.id = some "h1")).bind (·.costUsd)
      = some (.num 1750) ∧
    ((((sessionAfterHotel.itinerary.components.bind (·.hotel)).bind
        (·.options)).getD []).find? (fun o => o.id = some "h1")).bind (·.nightlyUsd)
      = some (.num 250) := by
  decide

end ConcreteEvaluation

end TripPlanner
